import Mathlib

/-
  Verification of the otelkit instrumentation facade (otelkit.go, middleware.go)
  against its natural-language specification.

  The embedding is shallow: the OpenTelemetry SDK objects the facade delegates
  to (spans, metric instruments, structured loggers) are modelled by explicit
  state. A trace is a list of span records; the ambient Go context is modelled
  by the id of the span it carries, if any; Go errors are Option GoErr with the
  error message as payload; a Go panic is the error branch of an Except.
-/

set_option autoImplicit false
set_option linter.unusedVariables false
set_option linter.unnecessarySimpa false

namespace OtelKit

/-- Attribute values (the attribute.KeyValue payloads used by the facade).
Float64-valued attributes are modelled as integers in their source unit. -/
inductive AttrValue
  | str (s : String)
  | int (i : Int)
  | bool (b : Bool)
  deriving DecidableEq, Repr

/-- attribute.KeyValue. -/
structure KeyValue where
  key : String
  value : AttrValue
  deriving DecidableEq, Repr

/-- Span status: codes.Unset, codes.Error with description, codes.Ok. -/
inductive SpanStatus
  | unset
  | err (description : String)
  | ok
  deriving DecidableEq, Repr

/-- Numeric status code (codes.Unset = 0 < codes.Error = 1 < codes.Ok = 2);
the SDK never lowers a span status. -/
def SpanStatus.rank : SpanStatus → Nat
  | .unset => 0
  | .err _ => 1
  | .ok => 2

/-- One SDK span: name, attributes, events, recorded errors, status and the
ended flag. After End the span is no longer recording and mutations drop. -/
structure SpanData where
  name : String
  attrs : List KeyValue
  events : List (String × List KeyValue)
  recordedErrors : List String
  status : SpanStatus
  ended : Bool
  deriving DecidableEq, Repr

/-- The trace state: all spans created so far (ids are list positions) and a
wall clock in nanoseconds. -/
structure World where
  spans : List SpanData
  now : Nat
  deriving DecidableEq, Repr

/-- A Go context, as far as the facade reads it: the id of the span it
carries. trace.SpanFromContext on a context with no span yields the no-op
span, modelled by activeSpan = none. -/
structure Ctx where
  activeSpan : Option Nat
  deriving DecidableEq, Repr

/-- A non-nil Go error; msg is what Error() returns. A possibly-nil error
value is Option GoErr. -/
structure GoErr where
  msg : String
  deriving DecidableEq, Repr

/-- Replace the element at position i by f applied to it; out-of-range
positions leave the list unchanged. -/
def modifyAt (f : SpanData → SpanData) : List SpanData → Nat → List SpanData
  | [], _ => []
  | s :: rest, 0 => f s :: rest
  | s :: rest, i + 1 => s :: modifyAt f rest i

def World.modifySpan (w : World) (sid : Nat) (f : SpanData → SpanData) : World :=
  { w with spans := modifyAt f w.spans sid }

/-- span.SetAttributes: appends to the attribute list; dropped once the span
has ended (the SDK span is no longer recording). -/
def World.spanSetAttributes (w : World) (sid : Nat) (attrs : List KeyValue) : World :=
  w.modifySpan sid fun s => if s.ended then s else { s with attrs := s.attrs ++ attrs }

/-- span.AddEvent. -/
def World.spanAddEvent (w : World) (sid : Nat) (name : String) (attrs : List KeyValue) : World :=
  w.modifySpan sid fun s => if s.ended then s else { s with events := s.events ++ [(name, attrs)] }

/-- span.RecordError with a non-nil error: records the error message on the
span (the SDK stores it as an exception event). -/
def World.spanRecordError (w : World) (sid : Nat) (m : String) : World :=
  w.modifySpan sid fun s => if s.ended then s else { s with recordedErrors := s.recordedErrors ++ [m] }

/-- span.SetStatus: the SDK ignores an update whose code is lower than the
current status code, and only an error status carries a description. -/
def World.spanSetStatus (w : World) (sid : Nat) (st : SpanStatus) : World :=
  w.modifySpan sid fun s =>
    if s.ended then s
    else if st.rank < s.status.rank then s
    else { s with status := st }

/-- span.End; a second End is a no-op, which the update makes idempotent. -/
def World.endSpan (w : World) (sid : Nat) : World :=
  w.modifySpan sid fun s => { s with ended := true }

/-- Advance the wall clock by d nanoseconds. -/
def World.advance (w : World) (d : Nat) : World :=
  { w with now := w.now + d }

/-- A fresh span as tracer.Start creates it: unset status, recording. -/
def SpanData.fresh (name : String) (attrs : List KeyValue) : SpanData :=
  ⟨name, attrs, [], [], .unset, false⟩

/-- tracer.Start: appends a fresh unset, recording span and returns the
derived context carrying it together with its id. -/
def World.startSpan (w : World) (name : String) (attrs : List KeyValue) :
    World × Ctx × Nat :=
  ({ w with spans := w.spans ++ [SpanData.fresh name attrs] },
   ⟨some w.spans.length⟩, w.spans.length)

/-- SetAttributes on the span carried by a context (no-op span when absent). -/
def ctxSetAttributes (w : World) (ctx : Ctx) (attrs : List KeyValue) : World :=
  match ctx.activeSpan with
  | none => w
  | some sid => w.spanSetAttributes sid attrs

/-- AddEvent on the span carried by a context (no-op span when absent). -/
def ctxAddEvent (w : World) (ctx : Ctx) (name : String) (attrs : List KeyValue) : World :=
  match ctx.activeSpan with
  | none => w
  | some sid => w.spanAddEvent sid name attrs

/-- RecordError on the span carried by a context (no-op span when absent). -/
def ctxRecordError (w : World) (ctx : Ctx) (m : String) : World :=
  match ctx.activeSpan with
  | none => w
  | some sid => w.spanRecordError sid m

/-- SetStatus on the span carried by a context (no-op span when absent). -/
def ctxSetStatus (w : World) (ctx : Ctx) (st : SpanStatus) : World :=
  match ctx.activeSpan with
  | none => w
  | some sid => w.spanSetStatus sid st

/-- OTelKit.AddEvent: trace.SpanFromContext(ctx) then span.AddEvent. -/
def AddEvent (w : World) (ctx : Ctx) (name : String) (attrs : List KeyValue) : World :=
  ctxAddEvent w ctx name attrs

/-- OTelKit.SetAttributes: trace.SpanFromContext(ctx) then span.SetAttributes. -/
def SetAttributes (w : World) (ctx : Ctx) (attrs : List KeyValue) : World :=
  ctxSetAttributes w ctx attrs

/-- OTelKit.RecordError: span.RecordError(err) followed by
span.SetStatus(codes.Error, err.Error()). span.RecordError ignores a nil
error, but evaluating err.Error() on a nil error value dereferences a nil
interface and panics, modelled as the error branch. -/
def RecordError (w : World) (ctx : Ctx) (err : Option GoErr) : Except String World :=
  let w1 := match err with
    | some e => ctxRecordError w ctx e.msg
    | none => w
  match err with
  | none => .error "panic: runtime error: invalid memory address or nil pointer dereference"
  | some e => .ok (ctxSetStatus w1 ctx (.err e.msg))

/-- One interaction of a traced body with the facade. A body is user code;
through the kit it can add events, set attributes and record (non-nil)
errors on the span carried by the context it was given. -/
inductive BodyOp
  | addEvent (name : String) (attrs : List KeyValue)
  | setAttrs (attrs : List KeyValue)
  | recordErr (e : GoErr)
  deriving DecidableEq, Repr

def BodyOp.isRecordErr : BodyOp → Bool
  | .recordErr _ => true
  | _ => false

/-- A body function fn : context → error, described by the facade calls it
makes, the wall-clock time it takes and the error value it returns. -/
structure Body where
  ops : List BodyOp
  elapsed : Nat
  ret : Option GoErr
  deriving DecidableEq, Repr

def applyBodyOp (ctx : Ctx) (w : World) : BodyOp → World
  | .addEvent n attrs => ctxAddEvent w ctx n attrs
  | .setAttrs attrs => ctxSetAttributes w ctx attrs
  | .recordErr e => ctxSetStatus (ctxRecordError w ctx e.msg) ctx (.err e.msg)

/-- Run a body under a given context: perform its facade calls, let the
clock advance by its duration, and return its error value. -/
def runBody (w : World) (ctx : Ctx) (b : Body) : World × Option GoErr :=
  ((b.ops.foldl (applyBodyOp ctx) w).advance b.elapsed, b.ret)

/-- OTelKit.TraceFunction: start a span, set the given attributes, run the
body with the derived context; on a non-nil error record it and set the
error status with the error message as description; the deferred End runs
last; the body error is returned unchanged. -/
def TraceFunction (w : World) (ctx : Ctx) (functionName : String) (fn : Body)
    (attrs : List KeyValue) : World × Option GoErr :=
  let r := w.startSpan functionName []
  let sid := r.2.2
  let w2 := r.1.spanSetAttributes sid attrs
  let br := runBody w2 r.2.1 fn
  let w4 := match br.2 with
    | some e => (br.1.spanRecordError sid e.msg).spanSetStatus sid (.err e.msg)
    | none => br.1
  (w4.endSpan sid, br.2)

/-- OTelKit.ConditionalTrace: trace through TraceFunction when the condition
holds, otherwise run the body directly on the unmodified context. -/
def ConditionalTrace (w : World) (ctx : Ctx) (condition : Bool) (spanName : String)
    (fn : Body) : World × Option GoErr :=
  if condition then TraceFunction w ctx spanName fn []
  else runBody w ctx fn

/-- OTelKit.TimedOperation: run the body through TraceFunction, then set
operation.duration_ms (duration.Milliseconds(), an integer) on the span
obtained by trace.SpanFromContext applied to the OUTER context argument,
and return the measured duration with the body error. -/
def TimedOperation (w : World) (ctx : Ctx) (operationName : String) (fn : Body) :
    World × Nat × Option GoErr :=
  let start := w.now
  let p := TraceFunction w ctx operationName fn []
  let duration := p.1.now - start
  let w2 := ctxSetAttributes p.1 ctx
    [{ key := "operation.duration_ms", value := .int ((duration : Int) / 1000000) }]
  (w2, duration, p.2)

/- Basic lemmas about the span store. -/

theorem modifyAt_length (f : SpanData → SpanData) (l : List SpanData) (i : Nat) :
    (modifyAt f l i).length = l.length := by
  induction l generalizing i with
  | nil => rfl
  | cons s rest ih =>
    cases i with
    | zero => rfl
    | succ j => simp [modifyAt, ih]

theorem getElem?_modifyAt (f : SpanData → SpanData) (l : List SpanData) (i : Nat) :
    (modifyAt f l i)[i]? = (l[i]?).map f := by
  induction l generalizing i with
  | nil => cases i <;> rfl
  | cons s rest ih =>
    cases i with
    | zero => simp [modifyAt]
    | succ j => simpa [modifyAt] using ih j

theorem getElem?_append_singleton (l : List SpanData) (a : SpanData) :
    (l ++ [a])[l.length]? = some a := by
  induction l with
  | nil => rfl
  | cons s rest ih => simp [ih]

/-- Effect of one body facade call on the span its context carries: the span
stays live, its status code never exceeds Error, its name is unchanged, and
only a recordErr call can change the status. -/
theorem applyBodyOp_span (sid : Nat) (w : World) (op : BodyOp) (s : SpanData)
    (hs : w.spans[sid]? = some s) (hlive : s.ended = false) :
    ∃ s2, (applyBodyOp ⟨some sid⟩ w op).spans[sid]? = some s2 ∧
      s2.ended = false ∧ s2.name = s.name ∧
      (s2.status = s.status ∨ ∃ m, s2.status = .err m) ∧
      (op.isRecordErr = false → s2.status = s.status) := by
  cases op with
  | addEvent n attrs =>
    refine ⟨{ s with events := s.events ++ [(n, attrs)] }, ?_, hlive, rfl, Or.inl rfl,
      fun _ => rfl⟩
    simp [applyBodyOp, ctxAddEvent, World.spanAddEvent, World.modifySpan,
      getElem?_modifyAt, hs, hlive]
  | setAttrs attrs =>
    refine ⟨{ s with attrs := s.attrs ++ attrs }, ?_, hlive, rfl, Or.inl rfl,
      fun _ => rfl⟩
    simp [applyBodyOp, ctxSetAttributes, World.spanSetAttributes, World.modifySpan,
      getElem?_modifyAt, hs, hlive]
  | recordErr e =>
    by_cases hstat : (SpanStatus.err e.msg).rank < s.status.rank
    · refine ⟨{ s with recordedErrors := s.recordedErrors ++ [e.msg] }, ?_, hlive, rfl,
        Or.inl rfl, fun h => by cases h⟩
      simp [applyBodyOp, ctxRecordError, World.spanRecordError, ctxSetStatus,
        World.spanSetStatus, World.modifySpan, getElem?_modifyAt, hs, hlive, hstat]
    · refine ⟨{ s with recordedErrors := s.recordedErrors ++ [e.msg], status := .err e.msg },
        ?_, hlive, rfl, Or.inr ⟨e.msg, rfl⟩, fun h => by cases h⟩
      simp [applyBodyOp, ctxRecordError, World.spanRecordError, ctxSetStatus,
        World.spanSetStatus, World.modifySpan, getElem?_modifyAt, hs, hlive, hstat]

/-- Effect of a whole body on the span its context carries. -/
theorem foldBody_span (ops : List BodyOp) (sid : Nat) (w : World) (s : SpanData)
    (hs : w.spans[sid]? = some s) (hlive : s.ended = false) :
    ∃ s2, ((ops.foldl (applyBodyOp ⟨some sid⟩) w).spans)[sid]? = some s2 ∧
      s2.ended = false ∧ s2.name = s.name ∧
      (s2.status = s.status ∨ ∃ m, s2.status = .err m) ∧
      ((∀ op ∈ ops, op.isRecordErr = false) → s2.status = s.status) := by
  induction ops generalizing w s with
  | nil => exact ⟨s, hs, hlive, rfl, Or.inl rfl, fun _ => rfl⟩
  | cons op rest ih =>
    obtain ⟨s1, hs1, hlive1, hname1, hstat1, hpure1⟩ := applyBodyOp_span sid w op s hs hlive
    obtain ⟨s2, hs2, hlive2, hname2, hstat2, hpure2⟩ :=
      ih (applyBodyOp ⟨some sid⟩ w op) s1 hs1 hlive1
    refine ⟨s2, by simpa using hs2, hlive2, hname2.trans hname1, ?_, ?_⟩
    · rcases hstat2 with h2 | ⟨m, hm⟩
      · rcases hstat1 with h1 | ⟨m, hm⟩
        · exact Or.inl (h2.trans h1)
        · exact Or.inr ⟨m, h2.trans hm⟩
      · exact Or.inr ⟨m, hm⟩
    · intro hall
      have h1 := hpure1 (hall op (by simp))
      have h2 := hpure2 (fun o ho => hall o (by simp [ho]))
      exact h2.trans h1

theorem World.advance_spans (w : World) (d : Nat) : (w.advance d).spans = w.spans := rfl

/-- Claim C1: for every body and context, TraceFunction returns exactly the
error the body returned; the span it started is ended on every exit path;
on a non-nil body error the error message is recorded on that span and its
status is error with the error message as description; on a nil return from
a body that did not itself record an error through the facade, the status of
that span remains unset. -/
theorem c1_TraceFunction_contract (w : World) (ctx : Ctx) (functionName : String)
    (fn : Body) (attrs : List KeyValue) :
    (TraceFunction w ctx functionName fn attrs).2 = fn.ret ∧
    ∃ s, ((TraceFunction w ctx functionName fn attrs).1.spans)[w.spans.length]? = some s ∧
      s.name = functionName ∧ s.ended = true ∧
      (∀ e, fn.ret = some e → e.msg ∈ s.recordedErrors ∧ s.status = .err e.msg) ∧
      (fn.ret = none → (∀ op ∈ fn.ops, op.isRecordErr = false) → s.status = .unset) := by
  refine ⟨rfl, ?_⟩
  have hstart : ((w.startSpan functionName []).1.spans)[w.spans.length]? =
      some (SpanData.fresh functionName []) := by
    simpa [World.startSpan] using getElem?_append_singleton w.spans (SpanData.fresh functionName [])
  have hattrs : (((w.startSpan functionName []).1.spanSetAttributes w.spans.length attrs).spans)[w.spans.length]? =
      some { SpanData.fresh functionName [] with attrs := attrs } := by
    simp [World.spanSetAttributes, World.modifySpan, getElem?_modifyAt, hstart, SpanData.fresh]
  obtain ⟨s2, hs2, hlive2, hname2, hstat2, hpure2⟩ :=
    foldBody_span fn.ops w.spans.length _ _ hattrs rfl
  have hname2f : s2.name = functionName := by simpa [SpanData.fresh] using hname2
  have htf : TraceFunction w ctx functionName fn attrs =
      ((match fn.ret with
        | some e =>
          (((fn.ops.foldl (applyBodyOp ⟨some w.spans.length⟩)
              ((w.startSpan functionName []).1.spanSetAttributes w.spans.length attrs)).advance
                fn.elapsed).spanRecordError w.spans.length e.msg).spanSetStatus
                  w.spans.length (.err e.msg)
        | none =>
          (fn.ops.foldl (applyBodyOp ⟨some w.spans.length⟩)
              ((w.startSpan functionName []).1.spanSetAttributes w.spans.length attrs)).advance
                fn.elapsed).endSpan w.spans.length, fn.ret) := rfl
  have hadv : (((fn.ops.foldl (applyBodyOp ⟨some w.spans.length⟩)
      ((w.startSpan functionName []).1.spanSetAttributes w.spans.length attrs)).advance
        fn.elapsed).spans)[w.spans.length]? = some s2 := by
    simpa [World.advance] using hs2
  cases hret : fn.ret with
  | none =>
    refine ⟨{ s2 with ended := true }, ?_, hname2f, rfl, ?_, ?_⟩
    · rw [htf]
      simp only [hret]
      simp [World.endSpan, World.modifySpan, getElem?_modifyAt, hadv]
    · intro e he; cases he
    · intro _ hall
      have := hpure2 hall
      simpa [SpanData.fresh] using this
  | some e =>
    have hrank2 : s2.status.rank ≤ 1 := by
      rcases hstat2 with h | ⟨m, hm⟩
      · simp [h, SpanData.fresh, SpanStatus.rank]
      · simp [hm, SpanStatus.rank]
    have hnotlt : ¬ (SpanStatus.err e.msg).rank < s2.status.rank := by
      cases h3 : s2.status with
      | unset => simp [SpanStatus.rank, h3]
      | err m => simp [SpanStatus.rank, h3]
      | ok => rw [h3] at hrank2; simp [SpanStatus.rank] at hrank2
    have hrec : ((((fn.ops.foldl (applyBodyOp ⟨some w.spans.length⟩)
        ((w.startSpan functionName []).1.spanSetAttributes w.spans.length attrs)).advance
          fn.elapsed).spanRecordError w.spans.length e.msg).spans)[w.spans.length]? =
        some { s2 with recordedErrors := s2.recordedErrors ++ [e.msg] } := by
      simp [World.spanRecordError, World.modifySpan, getElem?_modifyAt, hadv, hlive2]
    have hstatus : (((((fn.ops.foldl (applyBodyOp ⟨some w.spans.length⟩)
        ((w.startSpan functionName []).1.spanSetAttributes w.spans.length attrs)).advance
          fn.elapsed).spanRecordError w.spans.length e.msg).spanSetStatus
            w.spans.length (.err e.msg)).spans)[w.spans.length]? =
        some { s2 with recordedErrors := s2.recordedErrors ++ [e.msg], status := .err e.msg } := by
      simp [World.spanSetStatus, World.modifySpan, getElem?_modifyAt, hrec, hlive2, hnotlt]
    refine ⟨{ s2 with recordedErrors := s2.recordedErrors ++ [e.msg], status := .err e.msg, ended := true },
      ?_, hname2f, rfl, ?_, ?_⟩
    · rw [htf]
      simp only [hret]
      simp [World.endSpan, World.modifySpan, getElem?_modifyAt, hstatus]
    · intro e2 he2
      cases he2
      exact ⟨by simp, rfl⟩
    · intro h; cases h

/-- Closed instance of the C1 contract at a concrete erroring body. -/
theorem c1_TraceFunction_contract_witness :
    (TraceFunction ⟨[], 0⟩ ⟨none⟩ "f" ⟨[], 5, some ⟨"boom"⟩⟩ []).2 = some ⟨"boom"⟩ ∧
    ∃ s, ((TraceFunction ⟨[], 0⟩ ⟨none⟩ "f" ⟨[], 5, some ⟨"boom"⟩⟩ []).1.spans)[0]? = some s ∧
      s.name = "f" ∧ s.ended = true ∧ "boom" ∈ s.recordedErrors ∧ s.status = .err "boom" := by
  obtain ⟨hret, s, hs, hname, hend, herr, -⟩ :=
    c1_TraceFunction_contract ⟨[], 0⟩ ⟨none⟩ "f" ⟨[], 5, some ⟨"boom"⟩⟩ []
  obtain ⟨hmem, hst⟩ := herr ⟨"boom"⟩ rfl
  exact ⟨hret, s, hs, hname, hend, hmem, hst⟩

/-- Each body facade call keeps the number of spans unchanged. -/
theorem applyBodyOp_spans_length (ctx : Ctx) (w : World) (op : BodyOp) :
    (applyBodyOp ctx w op).spans.length = w.spans.length := by
  cases op <;> cases hc : ctx.activeSpan <;>
    simp [applyBodyOp, ctxAddEvent, ctxSetAttributes, ctxRecordError, ctxSetStatus, hc,
      World.spanAddEvent, World.spanSetAttributes, World.spanRecordError, World.spanSetStatus,
      World.modifySpan, modifyAt_length]

/-- Running a body never creates or destroys spans. -/
theorem runBody_spans_length (w : World) (ctx : Ctx) (b : Body) :
    ((runBody w ctx b).1).spans.length = w.spans.length := by
  show ((b.ops.foldl (applyBodyOp ctx) w).advance b.elapsed).spans.length = w.spans.length
  rw [World.advance_spans]
  induction b.ops generalizing w with
  | nil => rfl
  | cons op rest ih => simp [List.foldl, ih, applyBodyOp_spans_length]

/-- Claim C5: ConditionalTrace with a false condition runs the body directly
on the unmodified context and returns its exact result, creating no span;
with a true condition it is exactly TraceFunction with no extra attributes. -/
theorem c5_ConditionalTrace_dispatch (w : World) (ctx : Ctx) (spanName : String)
    (fn : Body) :
    ConditionalTrace w ctx false spanName fn = runBody w ctx fn ∧
    ((ConditionalTrace w ctx false spanName fn).1).spans.length = w.spans.length ∧
    ConditionalTrace w ctx true spanName fn = TraceFunction w ctx spanName fn [] := by
  refine ⟨rfl, ?_, rfl⟩
  show ((runBody w ctx fn).1).spans.length = w.spans.length
  exact runBody_spans_length w ctx fn

/-- Claim C2 (code bug): with no active span in the context, AddEvent and
SetAttributes are no-ops, and RecordError with a non-nil error is a no-op;
but RecordError with a nil error evaluates err.Error() on a nil interface
and panics instead of being a no-op. -/
theorem c2_noSpan_calls :
    AddEvent ⟨[], 0⟩ ⟨none⟩ "evt" [] = ⟨[], 0⟩ ∧
    SetAttributes ⟨[], 0⟩ ⟨none⟩ [⟨"k", .str "v"⟩] = ⟨[], 0⟩ ∧
    RecordError ⟨[], 0⟩ ⟨none⟩ (some ⟨"boom"⟩) = .ok ⟨[], 0⟩ ∧
    RecordError ⟨[], 0⟩ ⟨none⟩ none =
      .error "panic: runtime error: invalid memory address or nil pointer dereference" :=
  ⟨rfl, rfl, rfl, rfl⟩

/-- Claim C4 (code bug): TimedOperation at a body that takes 10ms and a
context with no active span: the span it creates carries the operation name
and the returned duration is the full 10ms (in particular at least the body
time), but the created span ends WITHOUT the operation.duration_ms
attribute, because the attribute is set through the outer context, not on
the span TimedOperation created. -/
theorem c4_TimedOperation_attr_dropped :
    (TimedOperation ⟨[], 0⟩ ⟨none⟩ "op" ⟨[], 10000000, none⟩).2.1 = 10000000 ∧
    10000000 ≤ (TimedOperation ⟨[], 0⟩ ⟨none⟩ "op" ⟨[], 10000000, none⟩).2.1 ∧
    (TimedOperation ⟨[], 0⟩ ⟨none⟩ "op" ⟨[], 10000000, none⟩).1.spans =
      [{ name := "op", attrs := [], events := [], recordedErrors := [],
         status := .unset, ended := true }] ∧
    (TimedOperation ⟨[], 0⟩ ⟨none⟩ "op" ⟨[], 10000000, none⟩).2.2 = none := by
  refine ⟨?_, ?_, ?_, ?_⟩ <;> decide

/- Configuration resolution (DefaultConfig and getEnvOrDefault). -/

/-- slog levels used by the configuration (slog.LevelDebug .. slog.LevelError). -/
inductive LogLevel
  | debug
  | info
  | warn
  | error
  deriving DecidableEq, Repr

/-- The process environment: variable assignments; an absent or empty
variable counts as unset (os.Getenv returns the empty string for both). -/
def EnvMap := List (String × String)

def lookupEnv : List (String × String) → String → Option String
  | [], _ => none
  | (k, v) :: rest, key => if k = key then some v else lookupEnv rest key

/-- getEnvOrDefault: the environment value when set and non-empty, else the
default. -/
def getEnvOrDefault (env : List (String × String)) (key defaultValue : String) : String :=
  match lookupEnv env key with
  | some value => if value = "" then defaultValue else value
  | none => defaultValue

/-- The Config struct (full variant: traces, metrics and logs fields).
SampleRate is a rational standing for the float64 field. -/
structure Config where
  serviceName : String
  serviceVersion : String
  environment : String
  exporterType : String
  jaegerURL : String
  otlpEndpoint : String
  sampleRate : ℚ
  debug : Bool
  enableMetrics : Bool
  enableLogs : Bool
  metricsExporterType : String
  logsExporterType : String
  prometheusPort : Nat
  logLevel : LogLevel
  logFilePath : String
  deriving DecidableEq, Repr

def ExporterJaeger : String := "jaeger"
def ExporterOTLP : String := "otlp"
def ExporterStdout : String := "stdout"
def ExporterPrometheus : String := "prometheus"
def ExporterNone : String := "none"

/-- DefaultConfig as a function of the process environment. The log level
switch silently defaults any unmapped string to info; PrometheusPort is the
constant 9090 (the environment override is a TODO in the source); SampleRate
is the constant 0.1. -/
def DefaultConfig (env : List (String × String)) : Config :=
  { serviceName := getEnvOrDefault env "OTEL_SERVICE_NAME" "unknown-service"
    serviceVersion := getEnvOrDefault env "OTEL_SERVICE_VERSION" "1.0.0"
    environment := getEnvOrDefault env "OTEL_ENVIRONMENT" "development"
    exporterType := getEnvOrDefault env "OTEL_EXPORTER_TYPE" ExporterStdout
    jaegerURL := getEnvOrDefault env "JAEGER_URL" "http://localhost:14268/api/traces"
    otlpEndpoint := getEnvOrDefault env "OTEL_EXPORTER_OTLP_ENDPOINT" "http://localhost:4318"
    sampleRate := 1/10
    debug := getEnvOrDefault env "OTEL_DEBUG" "false" == "true"
    enableMetrics := getEnvOrDefault env "OTEL_ENABLE_METRICS" "true" == "true"
    enableLogs := getEnvOrDefault env "OTEL_ENABLE_LOGS" "true" == "true"
    metricsExporterType := getEnvOrDefault env "OTEL_METRICS_EXPORTER" ExporterPrometheus
    logsExporterType := getEnvOrDefault env "OTEL_LOGS_EXPORTER" ExporterStdout
    prometheusPort := 9090
    logLevel :=
      match getEnvOrDefault env "OTEL_LOG_LEVEL" "info" with
      | "debug" => LogLevel.debug
      | "warn" => LogLevel.warn
      | "error" => LogLevel.error
      | _ => LogLevel.info
    logFilePath := getEnvOrDefault env "OTEL_LOG_FILE_PATH" "" }

/-- Every field with a non-empty default resolves to a non-empty value. -/
def Populated (c : Config) : Prop :=
  c.serviceName ≠ "" ∧ c.serviceVersion ≠ "" ∧ c.environment ≠ "" ∧
  c.exporterType ≠ "" ∧ c.jaegerURL ≠ "" ∧ c.otlpEndpoint ≠ "" ∧
  c.metricsExporterType ≠ "" ∧ c.logsExporterType ≠ "" ∧ c.prometheusPort ≠ 0

theorem getEnvOrDefault_ne_empty (env : List (String × String)) (key d : String)
    (hd : d ≠ "") : getEnvOrDefault env key d ≠ "" := by
  unfold getEnvOrDefault
  cases lookupEnv env key with
  | none => exact hd
  | some v =>
    by_cases hv : v = "" <;> simp [hv, hd]

/-- Claim C6: with no relevant environment variable set, DefaultConfig is
exactly the documented default configuration, and for every environment the
resolved configuration leaves no field unset (non-empty defaults stay
non-empty, since an empty environment value counts as unset). -/
theorem c6_DefaultConfig_defaults :
    DefaultConfig [] =
      { serviceName := "unknown-service", serviceVersion := "1.0.0",
        environment := "development", exporterType := ExporterStdout,
        jaegerURL := "http://localhost:14268/api/traces",
        otlpEndpoint := "http://localhost:4318", sampleRate := 1/10,
        debug := false, enableMetrics := true, enableLogs := true,
        metricsExporterType := ExporterPrometheus, logsExporterType := ExporterStdout,
        prometheusPort := 9090, logLevel := .info, logFilePath := "" } ∧
    ∀ env, Populated (DefaultConfig env) := by
  constructor
  · rfl
  · intro env
    refine ⟨?_, ?_, ?_, ?_, ?_, ?_, ?_, ?_, ?_⟩
    · exact getEnvOrDefault_ne_empty env "OTEL_SERVICE_NAME" "unknown-service" (by decide)
    · exact getEnvOrDefault_ne_empty env "OTEL_SERVICE_VERSION" "1.0.0" (by decide)
    · exact getEnvOrDefault_ne_empty env "OTEL_ENVIRONMENT" "development" (by decide)
    · exact getEnvOrDefault_ne_empty env "OTEL_EXPORTER_TYPE" ExporterStdout (by decide)
    · exact getEnvOrDefault_ne_empty env "JAEGER_URL" "http://localhost:14268/api/traces" (by decide)
    · exact getEnvOrDefault_ne_empty env "OTEL_EXPORTER_OTLP_ENDPOINT" "http://localhost:4318" (by decide)
    · exact getEnvOrDefault_ne_empty env "OTEL_METRICS_EXPORTER" ExporterPrometheus (by decide)
    · exact getEnvOrDefault_ne_empty env "OTEL_LOGS_EXPORTER" ExporterStdout (by decide)
    · show (9090 : Nat) ≠ 0
      decide

/- Provider construction (New and the per-signal exporter factories). -/

/-- Outcomes of the external SDK constructors New delegates to (network
exporters, the prometheus bridge, the stdout encoders, opening the log
file). Each may fail; the facade only forwards such failures. -/
structure Ext where
  jaegerNew : Except String Unit
  otlpTraceNew : Except String Unit
  stdoutTraceNew : Except String Unit
  otlpMetricNew : Except String Unit
  prometheusNew : Except String Unit
  stdoutMetricNew : Except String Unit
  otlpLogNew : Except String Unit
  stdoutLogNew : Except String Unit
  openLogFile : Except String Unit
  deriving Repr

/-- createTraceExporter: jaeger, otlp and stdout build an exporter through
the corresponding SDK constructor; none yields no exporter; anything else is
the unsupported-type error. -/
def createTraceExporter (ext : Ext) (config : Config) : Except String (Option Unit) :=
  if config.exporterType = ExporterJaeger then ext.jaegerNew.map some
  else if config.exporterType = ExporterOTLP then ext.otlpTraceNew.map some
  else if config.exporterType = ExporterStdout then ext.stdoutTraceNew.map some
  else if config.exporterType = ExporterNone then Except.ok none
  else Except.error ("unsupported trace exporter type: " ++ config.exporterType)

/-- createMetricsExporter: otlp, prometheus and stdout build a reader; none
yields no reader; anything else is the unsupported-type error. -/
def createMetricsExporter (ext : Ext) (config : Config) : Except String (Option Unit) :=
  if config.metricsExporterType = ExporterOTLP then ext.otlpMetricNew.map some
  else if config.metricsExporterType = ExporterPrometheus then ext.prometheusNew.map some
  else if config.metricsExporterType = ExporterStdout then ext.stdoutMetricNew.map some
  else if config.metricsExporterType = ExporterNone then Except.ok none
  else Except.error ("unsupported metrics exporter type: " ++ config.metricsExporterType)

/-- createLogsExporter: otlp and stdout build an exporter; none yields no
exporter; anything else is the unsupported-type error. -/
def createLogsExporter (ext : Ext) (config : Config) : Except String (Option Unit) :=
  if config.logsExporterType = ExporterOTLP then ext.otlpLogNew.map some
  else if config.logsExporterType = ExporterStdout then ext.stdoutLogNew.map some
  else if config.logsExporterType = ExporterNone then Except.ok none
  else Except.error ("unsupported logs exporter type: " ++ config.logsExporterType)

/-- The OTelKit handle, restricted to what the facade operations test: which
SDK objects are non-nil. The tracer always exists; the structured logger and
the OTel logger exist iff logging was enabled at construction; the four
metric instruments exist iff metrics were enabled at construction. -/
structure Kit where
  logger : Bool
  otelLogger : Bool
  httpRequestDuration : Bool
  httpRequestsTotal : Bool
  activeSpansGauge : Bool
  businessOpsCounter : Bool
  deriving DecidableEq, Repr

/-- initLogging after the exporter was created: opening the log file (only
attempted for a non-empty LogFilePath) may fail and aborts. -/
def initLoggingRest (ext : Ext) (config : Config) : Except String Unit :=
  if config.logFilePath = "" then .ok ()
  else ext.openLogFile

/-- The handle New returns on success: logger fields are non-nil iff logs
were enabled, the metric instruments non-nil iff metrics were enabled. -/
def kitOf (config : Config) : Kit :=
  { logger := config.enableLogs
    otelLogger := config.enableLogs
    httpRequestDuration := config.enableMetrics
    httpRequestsTotal := config.enableMetrics
    activeSpansGauge := config.enableMetrics
    businessOpsCounter := config.enableMetrics }

/-- initLogging: create the logs exporter, then the rest of the pipeline. -/
def initLogging (ext : Ext) (config : Config) : Except String Unit :=
  match createLogsExporter ext config with
  | .error e => .error ("failed to create logs exporter: " ++ e)
  | .ok _ => initLoggingRest ext config

/-- New: build the resource (constant merge, does not fail), then the trace
pipeline, then the metrics pipeline only when EnableMetrics, then the log
pipeline only when EnableLogs. Any exporter-factory failure aborts with an
error and no kit is produced. Creation of the four fixed-name metric
instruments on a fresh meter does not fail and is not modelled further. -/
def new (ext : Ext) (config : Config) : Except String Kit :=
  match createTraceExporter ext config with
  | .error e => .error ("failed to initialize tracing: failed to create trace exporter: " ++ e)
  | .ok _ =>
    match (if config.enableMetrics then createMetricsExporter ext config else .ok none) with
    | .error e => .error ("failed to initialize metrics: failed to create metrics exporter: " ++ e)
    | .ok _ =>
      match (if config.enableLogs then initLogging ext config else .ok ()) with
      | .error e => .error ("failed to initialize logging: " ++ e)
      | .ok _ => .ok (kitOf config)

def exOk {α : Type} : Except String α → Bool
  | .ok _ => true
  | .error _ => false

def traceExporterNames : List String := ["jaeger", "otlp", "stdout", "none"]
def metricsExporterNames : List String := ["otlp", "prometheus", "stdout", "none"]
def logsExporterNames : List String := ["otlp", "stdout", "none"]

/-- An Ext in which every external constructor succeeds. -/
def extAllOk : Ext := ⟨.ok (), .ok (), .ok (), .ok (), .ok (), .ok (), .ok (), .ok (), .ok ()⟩

/-- A configuration whose metrics exporter name is unrecognized while
metrics are disabled (and logs disabled, traces on the none exporter). -/
def cfgBogusMetrics : Config :=
  { serviceName := "svc", serviceVersion := "1.0.0", environment := "test",
    exporterType := "none", jaegerURL := "", otlpEndpoint := "", sampleRate := 1,
    debug := false, enableMetrics := false, enableLogs := false,
    metricsExporterType := "bogus", logsExporterType := "stdout",
    prometheusPort := 9090, logLevel := .info, logFilePath := "" }

/-- Claim C7 counterexample: a configuration whose metrics exporter name is
not one of the recognized metrics backends, yet New succeeds, because the
metrics factory is only consulted when EnableMetrics is set. -/
theorem c7_new_counterexample :
    exOk (new extAllOk cfgBogusMetrics) = true ∧
    metricsExporterNames.contains cfgBogusMetrics.metricsExporterType = false := by
  decide

/-- Claim C7 as amended: an unrecognized trace exporter name always aborts
New with an error; an unrecognized metrics (resp. logs) exporter name aborts
New whenever EnableMetrics (resp. EnableLogs) is set. -/
theorem c7_new_unknown_exporter (ext : Ext) (config : Config) :
    (config.exporterType ∉ traceExporterNames → exOk (new ext config) = false) ∧
    (config.enableMetrics = true → config.metricsExporterType ∉ metricsExporterNames →
      exOk (new ext config) = false) ∧
    (config.enableLogs = true → config.logsExporterType ∉ logsExporterNames →
      exOk (new ext config) = false) := by
  have htrace : ∀ (h : config.exporterType ∉ traceExporterNames),
      createTraceExporter ext config =
        Except.error ("unsupported trace exporter type: " ++ config.exporterType) := by
    intro h
    simp only [traceExporterNames, List.mem_cons, List.not_mem_nil, or_false] at h
    push_neg at h
    simp [createTraceExporter, ExporterJaeger, ExporterOTLP, ExporterStdout, ExporterNone,
      h.1, h.2.1, h.2.2.1, h.2.2.2]
  have hmet : ∀ (h : config.metricsExporterType ∉ metricsExporterNames),
      createMetricsExporter ext config =
        Except.error ("unsupported metrics exporter type: " ++ config.metricsExporterType) := by
    intro h
    simp only [metricsExporterNames, List.mem_cons, List.not_mem_nil, or_false] at h
    push_neg at h
    simp [createMetricsExporter, ExporterOTLP, ExporterPrometheus, ExporterStdout, ExporterNone,
      h.1, h.2.1, h.2.2.1, h.2.2.2]
  have hlog : ∀ (h : config.logsExporterType ∉ logsExporterNames),
      createLogsExporter ext config =
        Except.error ("unsupported logs exporter type: " ++ config.logsExporterType) := by
    intro h
    simp only [logsExporterNames, List.mem_cons, List.not_mem_nil, or_false] at h
    push_neg at h
    simp [createLogsExporter, ExporterOTLP, ExporterStdout, ExporterNone,
      h.1, h.2.1, h.2.2]
  refine ⟨?_, ?_, ?_⟩
  · intro h
    simp [new, htrace h, exOk]
  · intro hm h
    cases ht : createTraceExporter ext config with
    | error e => simp [new, ht, exOk]
    | ok v => simp [new, ht, hm, hmet h, exOk]
  · intro hl h
    cases ht : createTraceExporter ext config with
    | error e => simp [new, ht, exOk]
    | ok v =>
      cases hmm : (if config.enableMetrics then createMetricsExporter ext config else .ok none) with
      | error e => simp [new, ht, hmm, exOk]
      | ok v2 => simp [new, ht, hmm, hl, initLogging, hlog h, exOk]

/-- Closed instance of the amended C7 statement at unrecognized names. -/
theorem c7_new_unknown_exporter_witness :
    exOk (new extAllOk { cfgBogusMetrics with exporterType := "bogus" }) = false ∧
    exOk (new extAllOk { cfgBogusMetrics with enableMetrics := true }) = false ∧
    exOk (new extAllOk { cfgBogusMetrics with enableLogs := true, logsExporterType := "bogus" }) = false := by
  refine ⟨?_, ?_, ?_⟩
  · exact (c7_new_unknown_exporter extAllOk _).1 (by decide)
  · exact (c7_new_unknown_exporter extAllOk _).2.1 rfl (by decide)
  · exact (c7_new_unknown_exporter extAllOk _).2.2 rfl (by decide)

/- Metric and log emission (the facade calls guarded by nil checks). -/

/-- OTel log severities used by the leveled logging helpers. -/
inductive Severity
  | debug
  | info
  | warn
  | error
  deriving DecidableEq, Repr

/-- A structured slog attribute value; errv is slog.Any applied to a
possibly-nil error value. -/
inductive SlogValue
  | str (s : String)
  | int (i : Int)
  | errv (e : Option GoErr)
  deriving DecidableEq, Repr

structure SAttr where
  key : String
  value : SlogValue
  deriving DecidableEq, Repr

/-- A record handed to the structured slog logger (handler-level filtering
happens downstream of the call and is not modelled). -/
structure SlogRecord where
  level : LogLevel
  msg : String
  attrs : List SAttr
  deriving DecidableEq, Repr

/-- A record emitted through the OTel logs pipeline; correlated carries the
span id taken from the context when its span context is valid. -/
structure OtelLogRecord where
  severity : Severity
  body : String
  attrs : List SAttr
  correlated : Option Nat
  deriving DecidableEq, Repr

/-- One call on a metric instrument. -/
inductive MetricEvent
  | counterAdd (name : String) (value : Int) (attrs : List KeyValue)
  | histogramRecord (name : String) (durationNs : Nat) (attrs : List KeyValue)
  | upDownAdd (name : String) (value : Int)
  deriving DecidableEq, Repr

/-- Everything the kit has handed to its instruments and loggers so far. -/
structure Emitted where
  metrics : List MetricEvent
  slogs : List SlogRecord
  otelLogs : List OtelLogRecord
  deriving DecidableEq, Repr

/-- OTelKit.RecordMetric: only when the business-operation counter exists,
add value to it tagged with the caller attributes plus operation_type. -/
def Kit.RecordMetric (k : Kit) (ctx : Ctx) (em : Emitted) (operation : String)
    (value : Int) (attrs : List KeyValue) : Emitted :=
  if k.businessOpsCounter then
    { em with metrics := em.metrics ++
        [.counterAdd "otelkit_business_operations_total" value
          (attrs ++ [⟨"operation_type", .str operation⟩])] }
  else em

/-- OTelKit.RecordHTTPMetrics: each of the two HTTP instruments is used only
when it exists; both are tagged by method and status code. -/
def Kit.RecordHTTPMetrics (k : Kit) (ctx : Ctx) (em : Emitted) (method statusCode : String)
    (durationNs : Nat) : Emitted :=
  let em1 := if k.httpRequestsTotal then
      { em with metrics := em.metrics ++
          [.counterAdd "http_requests_total" 1
            [⟨"method", .str method⟩, ⟨"status_code", .str statusCode⟩]] }
    else em
  if k.httpRequestDuration then
    { em1 with metrics := em1.metrics ++
        [.histogramRecord "http_request_duration_seconds" durationNs
          [⟨"method", .str method⟩, ⟨"status_code", .str statusCode⟩]] }
  else em1

/-- OTelKit.IncrementActiveSpans: adds 1 when the gauge exists. -/
def Kit.IncrementActiveSpans (k : Kit) (ctx : Ctx) (em : Emitted) : Emitted :=
  if k.activeSpansGauge then
    { em with metrics := em.metrics ++ [.upDownAdd "otelkit_active_spans" 1] }
  else em

/-- OTelKit.DecrementActiveSpans: adds -1 when the gauge exists. -/
def Kit.DecrementActiveSpans (k : Kit) (ctx : Ctx) (em : Emitted) : Emitted :=
  if k.activeSpansGauge then
    { em with metrics := em.metrics ++ [.upDownAdd "otelkit_active_spans" (-1)] }
  else em

/-- OTelKit.emitOTelLog: returns at once when the OTel logger is nil;
otherwise emits a record carrying the trace correlation ids when the span
context in the given context is valid. -/
def Kit.emitOTelLog (k : Kit) (ctx : Ctx) (em : Emitted) (severity : Severity)
    (msg : String) (attrs : List SAttr) : Emitted :=
  if k.otelLogger then
    { em with otelLogs := em.otelLogs ++ [⟨severity, msg, attrs, ctx.activeSpan⟩] }
  else em

/-- OTelKit.LogInfo: slog output only when the logger is non-nil, then the
OTel-log mirror. -/
def Kit.LogInfo (k : Kit) (ctx : Ctx) (em : Emitted) (msg : String) (attrs : List SAttr) : Emitted :=
  let em1 := if k.logger then { em with slogs := em.slogs ++ [⟨.info, msg, attrs⟩] } else em
  k.emitOTelLog ctx em1 .info msg attrs

/-- OTelKit.LogWarn. -/
def Kit.LogWarn (k : Kit) (ctx : Ctx) (em : Emitted) (msg : String) (attrs : List SAttr) : Emitted :=
  let em1 := if k.logger then { em with slogs := em.slogs ++ [⟨.warn, msg, attrs⟩] } else em
  k.emitOTelLog ctx em1 .warn msg attrs

/-- OTelKit.LogDebug. -/
def Kit.LogDebug (k : Kit) (ctx : Ctx) (em : Emitted) (msg : String) (attrs : List SAttr) : Emitted :=
  let em1 := if k.logger then { em with slogs := em.slogs ++ [⟨.debug, msg, attrs⟩] } else em
  k.emitOTelLog ctx em1 .debug msg attrs

/-- OTelKit.LogError: appends the (possibly nil) error as a structured
attribute before logging at error level. -/
def Kit.LogError (k : Kit) (ctx : Ctx) (em : Emitted) (msg : String) (err : Option GoErr)
    (attrs : List SAttr) : Emitted :=
  let allAttrs := attrs ++ [⟨"error", .errv err⟩]
  let em1 := if k.logger then { em with slogs := em.slogs ++ [⟨.error, msg, allAttrs⟩] } else em
  k.emitOTelLog ctx em1 .error msg allAttrs

/-- Claim C9: New with EnableMetrics (resp. EnableLogs) unset leaves every
metric instrument (resp. both loggers) nil; and every facade metric or
logging operation checks its handle for nil, so on a kit with the handles
absent each such call emits nothing and returns normally. -/
theorem c9_disabled_signals_noop (ext : Ext) (config : Config) (k : Kit) (ctx : Ctx)
    (em : Emitted) (operation : String) (value : Int) (attrs : List KeyValue)
    (method statusCode : String) (d : Nat) (msg : String) (sattrs : List SAttr)
    (err : Option GoErr) :
    (∀ kit, new ext config = .ok kit →
      (config.enableMetrics = false →
        kit.businessOpsCounter = false ∧ kit.httpRequestsTotal = false ∧
        kit.httpRequestDuration = false ∧ kit.activeSpansGauge = false) ∧
      (config.enableLogs = false → kit.logger = false ∧ kit.otelLogger = false)) ∧
    (k.businessOpsCounter = false → k.RecordMetric ctx em operation value attrs = em) ∧
    (k.httpRequestsTotal = false → k.httpRequestDuration = false →
      k.RecordHTTPMetrics ctx em method statusCode d = em) ∧
    (k.activeSpansGauge = false →
      k.IncrementActiveSpans ctx em = em ∧ k.DecrementActiveSpans ctx em = em) ∧
    (k.logger = false → k.otelLogger = false →
      k.LogInfo ctx em msg sattrs = em ∧ k.LogWarn ctx em msg sattrs = em ∧
      k.LogDebug ctx em msg sattrs = em ∧ k.LogError ctx em msg err sattrs = em) := by
  refine ⟨?_, ?_, ?_, ?_, ?_⟩
  · intro kit hkit
    have hk : kit = kitOf config := by
      unfold new at hkit
      cases ht : createTraceExporter ext config with
      | error e => rw [ht] at hkit; cases hkit
      | ok v =>
        rw [ht] at hkit
        cases hm : (if config.enableMetrics then createMetricsExporter ext config else .ok none) with
        | error e => rw [hm] at hkit; cases hkit
        | ok v2 =>
          rw [hm] at hkit
          cases hl : (if config.enableLogs then initLogging ext config else .ok ()) with
          | error e => rw [hl] at hkit; cases hkit
          | ok v3 => rw [hl] at hkit; cases hkit; rfl
    subst hk
    constructor
    · intro hm; simp [kitOf, hm]
    · intro hl; simp [kitOf, hl]
  · intro h; simp [Kit.RecordMetric, h]
  · intro h1 h2; simp [Kit.RecordHTTPMetrics, h1, h2]
  · intro h; simp [Kit.IncrementActiveSpans, Kit.DecrementActiveSpans, h]
  · intro h1 h2
    refine ⟨?_, ?_, ?_, ?_⟩ <;>
      simp [Kit.LogInfo, Kit.LogWarn, Kit.LogDebug, Kit.LogError, Kit.emitOTelLog, h1, h2]

/-- Closed instance of the C9 statement on a fully disabled kit. -/
theorem c9_disabled_signals_noop_witness :
    Kit.RecordMetric ⟨false, false, false, false, false, false⟩ ⟨none⟩ ⟨[], [], []⟩ "op" 1 [] = ⟨[], [], []⟩ ∧
    Kit.RecordHTTPMetrics ⟨false, false, false, false, false, false⟩ ⟨none⟩ ⟨[], [], []⟩ "GET" "200" 5 = ⟨[], [], []⟩ ∧
    Kit.IncrementActiveSpans ⟨false, false, false, false, false, false⟩ ⟨none⟩ ⟨[], [], []⟩ = ⟨[], [], []⟩ ∧
    Kit.LogError ⟨false, false, false, false, false, false⟩ ⟨none⟩ ⟨[], [], []⟩ "m" none [] = ⟨[], [], []⟩ := by
  obtain ⟨-, h1, h2, h3, h4⟩ :=
    c9_disabled_signals_noop extAllOk cfgBogusMetrics ⟨false, false, false, false, false, false⟩
      ⟨none⟩ ⟨[], [], []⟩ "op" 1 [] "GET" "200" 5 "m" [] none
  exact ⟨h1 rfl, h2 rfl rfl, (h3 rfl).1, (h4 rfl rfl).2.2.2⟩

/- HTTP middleware (middleware.go). -/

/-- The request fields the middleware reads. -/
structure Request where
  method : String
  path : String
  url : String
  userAgent : String
  remoteAddr : String
  deriving DecidableEq, Repr

/-- The wrapped handler, described by the WriteHeader calls it makes in
order and the wall-clock time it takes. -/
structure HttpHandler where
  writes : List Nat
  elapsed : Nat
  deriving DecidableEq, Repr

/-- The statusCode field of the responseWriter wrapper after the handler
ran: initialized to 200; every WriteHeader call overwrites it. -/
def responseWriterStatus (writes : List Nat) : Nat :=
  writes.foldl (fun _ statusCode => statusCode) 200

/-- net/http StatusText, restricted to the codes this development evaluates
concretely (it returns the empty string for unknown codes). -/
def statusText (code : Nat) : String :=
  if code = 200 then "OK"
  else if code = 404 then "Not Found"
  else if code = 500 then "Internal Server Error"
  else ""

/-- OTelKit.HTTPMiddleware, handling one request: start the span with the
request attributes, bump the active-span gauge, log the start (guarded
helper), run the handler through the responseWriter wrapper, set the
response attributes, mark the span status error for status >= 400, record
the HTTP metrics, then emit the completion log by calling LogAttrs on
o.logger DIRECTLY — with a nil logger this dereferences nil and panics
(error branch; the deferred span End and gauge decrement of the panic path
are not modelled). On the normal path the >= 400 error log follows, then
the deferred decrement and span End run. -/
def Kit.HTTPMiddleware (k : Kit) (w : World) (req : Request) (next : HttpHandler) :
    Except String (World × Emitted × Nat) :=
  let em0 : Emitted := ⟨[], [], []⟩
  let start := w.now
  let r := w.startSpan (req.method ++ " " ++ req.path)
    [⟨"http.method", .str req.method⟩, ⟨"http.url", .str req.url⟩,
     ⟨"http.route", .str req.path⟩, ⟨"http.user_agent", .str req.userAgent⟩,
     ⟨"http.remote_addr", .str req.remoteAddr⟩]
  let sid := r.2.2
  let ctx := r.2.1
  let em1 := k.IncrementActiveSpans ctx em0
  let em2 := k.LogInfo ctx em1 "HTTP request started"
    [⟨"method", .str req.method⟩, ⟨"path", .str req.path⟩,
     ⟨"user_agent", .str req.userAgent⟩, ⟨"remote_addr", .str req.remoteAddr⟩]
  let statusCode := responseWriterStatus next.writes
  let w2 := r.1.advance next.elapsed
  let duration := w2.now - start
  let w3 := w2.spanSetAttributes sid
    [⟨"http.status_code", .int (statusCode : Int)⟩,
     ⟨"http.status_text", .str (statusText statusCode)⟩,
     ⟨"http.duration_ms", .int ((duration : Int) / 1000000)⟩]
  let w4 := if 400 ≤ statusCode then w3.spanSetStatus sid (.err (statusText statusCode)) else w3
  let em3 := k.RecordHTTPMetrics ctx em2 req.method (toString statusCode) duration
  let lvl := if 500 ≤ statusCode then LogLevel.error
    else if 400 ≤ statusCode then LogLevel.warn else LogLevel.info
  if k.logger = false then
    .error "panic: runtime error: invalid memory address or nil pointer dereference"
  else
    let em4 : Emitted := { em3 with slogs := em3.slogs ++
      [⟨lvl, "HTTP request completed",
        [⟨"method", .str req.method⟩, ⟨"path", .str req.path⟩,
         ⟨"status_code", .int (statusCode : Int)⟩,
         ⟨"status_text", .str (statusText statusCode)⟩,
         ⟨"duration_ms", .int ((duration : Int) / 1000000)⟩]⟩] }
    let em5 := if 400 ≤ statusCode then
        k.LogError ctx em4 "HTTP request failed" none
          [⟨"status_code", .int (statusCode : Int)⟩, ⟨"path", .str req.path⟩]
      else em4
    let em6 := k.DecrementActiveSpans ctx em5
    .ok (w4.endSpan sid, em6, statusCode)

theorem responseWriterStatus_eq_getLast (writes : List Nat) :
    responseWriterStatus writes = writes.getLast?.getD 200 := by
  show writes.foldl (fun _ statusCode => statusCode) 200 = writes.getLast?.getD 200
  generalize 200 = init
  induction writes generalizing init with
  | nil => rfl
  | cons a rest ih =>
    cases rest with
    | nil => simp [List.foldl]
    | cons b m =>
      rw [List.foldl_cons, ih a, List.getLast?_cons_cons]
      have : (b :: m).getLast?.isSome := by simp [List.getLast?_isSome]
      cases hl : (b :: m).getLast? with
      | none => rw [hl] at this; cases this
      | some x => simp

/-- Claim C3 counterexample: a handler that first writes 404 and then 500.
The wrapper records the LAST status written, so the middleware reports 500,
not the first written status 404. -/
theorem c3_last_write_counterexample :
    (Kit.HTTPMiddleware ⟨true, true, true, true, true, true⟩ ⟨[], 0⟩
        ⟨"GET", "/x", "/x", "ua", "1.2.3.4"⟩ ⟨[404, 500], 1000⟩).map (fun out => out.2.2) =
      .ok 500 ∧
    ([404, 500] : List Nat).head? = some 404 ∧
    Nat.beq 500 404 = false := by
  exact ⟨rfl, rfl, rfl⟩

theorem emitOTelLog_slogs (k : Kit) (ctx : Ctx) (em : Emitted) (sev : Severity)
    (msg : String) (attrs : List SAttr) :
    (k.emitOTelLog ctx em sev msg attrs).slogs = em.slogs := by
  unfold Kit.emitOTelLog; split <;> rfl

theorem emitOTelLog_metrics (k : Kit) (ctx : Ctx) (em : Emitted) (sev : Severity)
    (msg : String) (attrs : List SAttr) :
    (k.emitOTelLog ctx em sev msg attrs).metrics = em.metrics := by
  unfold Kit.emitOTelLog; split <;> rfl

theorem LogError_metrics (k : Kit) (ctx : Ctx) (em : Emitted) (msg : String)
    (err : Option GoErr) (attrs : List SAttr) :
    (k.LogError ctx em msg err attrs).metrics = em.metrics := by
  unfold Kit.LogError
  rw [emitOTelLog_metrics]
  split <;> rfl

theorem LogError_slogs_mono (k : Kit) (ctx : Ctx) (em : Emitted) (msg : String)
    (err : Option GoErr) (attrs : List SAttr) (rec : SlogRecord) (hm : rec ∈ em.slogs) :
    rec ∈ (k.LogError ctx em msg err attrs).slogs := by
  unfold Kit.LogError
  rw [emitOTelLog_slogs]
  split
  · simp [hm]
  · exact hm

theorem DecrementActiveSpans_slogs (k : Kit) (ctx : Ctx) (em : Emitted) :
    (k.DecrementActiveSpans ctx em).slogs = em.slogs := by
  unfold Kit.DecrementActiveSpans; split <;> rfl

theorem DecrementActiveSpans_metrics_mono (k : Kit) (ctx : Ctx) (em : Emitted)
    (ev : MetricEvent) (hm : ev ∈ em.metrics) :
    ev ∈ (k.DecrementActiveSpans ctx em).metrics := by
  unfold Kit.DecrementActiveSpans
  split
  · simp [hm]
  · exact hm

theorem RecordHTTPMetrics_counter_mem (k : Kit) (ctx : Ctx) (em : Emitted)
    (method statusCode : String) (d : Nat) (h : k.httpRequestsTotal = true) :
    (MetricEvent.counterAdd "http_requests_total" 1
      [⟨"method", .str method⟩, ⟨"status_code", .str statusCode⟩]) ∈
      (k.RecordHTTPMetrics ctx em method statusCode d).metrics := by
  unfold Kit.RecordHTTPMetrics
  rw [if_pos h]
  split <;> simp

/-- The span updated by the middleware finalization (optional error status,
then the deferred End): it ends, and its attributes are untouched. -/
theorem endSpan_ite_status (c : Prop) [Decidable c] (w3 : World) (sid : Nat)
    (stt : SpanStatus) (s3 : SpanData) (h3 : w3.spans[sid]? = some s3)
    (hlive : s3.ended = false) :
    ∃ s, (((if c then w3.spanSetStatus sid stt else w3).endSpan sid).spans)[sid]? = some s ∧
      s.ended = true ∧ s.attrs = s3.attrs := by
  by_cases hc : c
  · rw [if_pos hc]
    by_cases hr : stt.rank < s3.status.rank
    · refine ⟨{ s3 with ended := true }, ?_, rfl, rfl⟩
      simp [World.endSpan, World.spanSetStatus, World.modifySpan, getElem?_modifyAt, h3,
        hlive, hr]
    · refine ⟨{ s3 with status := stt, ended := true }, ?_, rfl, rfl⟩
      simp [World.endSpan, World.spanSetStatus, World.modifySpan, getElem?_modifyAt, h3,
        hlive, hr]
  · rw [if_neg hc]
    refine ⟨{ s3 with ended := true }, ?_, rfl, rfl⟩
    simp [World.endSpan, World.modifySpan, getElem?_modifyAt, h3]

/-- A metric event already recorded survives the completion log, the
optional error log and the gauge decrement. -/
theorem counter_persists (k : Kit) (ctx : Ctx) (em3 : Emitted) (rec : SlogRecord)
    (c : Prop) [Decidable c] (emsg : String) (lattrs : List SAttr) (ev : MetricEvent)
    (hm : ev ∈ em3.metrics) :
    ev ∈ (k.DecrementActiveSpans ctx
        (if c then k.LogError ctx { em3 with slogs := em3.slogs ++ [rec] } emsg none lattrs
         else { em3 with slogs := em3.slogs ++ [rec] })).metrics := by
  apply DecrementActiveSpans_metrics_mono
  by_cases hc : c
  · rw [if_pos hc, LogError_metrics]
    exact hm
  · rw [if_neg hc]
    exact hm

/-- SetAttributes on a live span appends to its attribute list. -/
theorem spanSetAttributes_getElem (w : World) (sid : Nat) (a3 : List KeyValue) (s : SpanData)
    (hs : w.spans[sid]? = some s) (hlive : s.ended = false) :
    ((w.spanSetAttributes sid a3).spans)[sid]? = some { s with attrs := s.attrs ++ a3 } := by
  simp [World.spanSetAttributes, World.modifySpan, getElem?_modifyAt, hs, hlive]

/-- The span the middleware finalizes carries every attribute set by the
start attributes and the response attributes, and is ended, whatever the
error-status branch did. -/
theorem middleware_span_attr (w : World) (nm : String) (a5 a3 : List KeyValue) (el : Nat)
    (c : Prop) [Decidable c] (stt : SpanStatus) (kv : KeyValue) (hkv : kv ∈ a5 ++ a3) :
    ∃ s, (((if c then
        ((({ w with spans := w.spans ++ [SpanData.fresh nm a5] } : World).advance
          el).spanSetAttributes w.spans.length a3).spanSetStatus w.spans.length stt
      else
        (({ w with spans := w.spans ++ [SpanData.fresh nm a5] } : World).advance
          el).spanSetAttributes w.spans.length a3).endSpan w.spans.length).spans)[w.spans.length]? =
        some s ∧
      s.ended = true ∧ kv ∈ s.attrs := by
  have hA1 : ((({ w with spans := w.spans ++ [SpanData.fresh nm a5] } : World).advance
      el).spans)[w.spans.length]? = some (SpanData.fresh nm a5) := by
    simpa [World.advance] using getElem?_append_singleton w.spans (SpanData.fresh nm a5)
  have hA2 := spanSetAttributes_getElem _ w.spans.length a3 _ hA1 rfl
  obtain ⟨s, hget, hend, hattrs⟩ := endSpan_ite_status c _ w.spans.length stt _ hA2 rfl
  refine ⟨s, hget, hend, ?_⟩
  rw [hattrs]
  exact hkv

/-- The completion log record is found after the optional error log and the
gauge decrement, with every attribute it was built with. -/
theorem completion_log_found (k : Kit) (ctx : Ctx) (em3 : Emitted) (lvl : LogLevel)
    (msg : String) (attrs : List SAttr) (c : Prop) [Decidable c] (emsg : String)
    (lattrs : List SAttr) (a : SAttr) (ha : a ∈ attrs) :
    ∃ rec, rec ∈ (k.DecrementActiveSpans ctx
        (if c then
          k.LogError ctx { em3 with slogs := em3.slogs ++ [⟨lvl, msg, attrs⟩] } emsg none lattrs
         else { em3 with slogs := em3.slogs ++ [⟨lvl, msg, attrs⟩] })).slogs ∧
      rec.msg = msg ∧ a ∈ rec.attrs := by
  refine ⟨⟨lvl, msg, attrs⟩, ?_, rfl, ha⟩
  rw [DecrementActiveSpans_slogs]
  by_cases hc : c
  · rw [if_pos hc]
    exact LogError_slogs_mono _ _ _ _ _ _ _ (by simp)
  · rw [if_neg hc]
    simp

/-- Claim C3 as amended: for every request handled with a non-nil logger,
the status code reported in the result, recorded as the span attribute
http.status_code, logged in the completion record, and tagged on the HTTP
request counter (when that instrument exists), is the LAST status code the
handler wrote through WriteHeader, defaulting to 200 when it wrote none. -/
theorem c3_status_recording (k : Kit) (w : World) (req : Request) (next : HttpHandler)
    (h : k.logger = true) :
    ∃ wOut em, k.HTTPMiddleware w req next = .ok (wOut, em, next.writes.getLast?.getD 200) ∧
      (∃ s, wOut.spans[w.spans.length]? = some s ∧ s.ended = true ∧
        (⟨"http.status_code", .int ((next.writes.getLast?.getD 200 : Nat) : Int)⟩ : KeyValue) ∈ s.attrs) ∧
      (∃ rec, rec ∈ em.slogs ∧ rec.msg = "HTTP request completed" ∧
        (⟨"status_code", .int ((next.writes.getLast?.getD 200 : Nat) : Int)⟩ : SAttr) ∈ rec.attrs) ∧
      (k.httpRequestsTotal = true →
        (MetricEvent.counterAdd "http_requests_total" 1
          [⟨"method", .str req.method⟩,
           ⟨"status_code", .str (toString (next.writes.getLast?.getD 200))⟩]) ∈ em.metrics) := by
  rw [← responseWriterStatus_eq_getLast]
  simp only [Kit.HTTPMiddleware, World.startSpan]
  rw [if_neg (by simp [h])]
  refine ⟨_, _, rfl, ?_, ?_, ?_⟩
  · apply middleware_span_attr
    simp
  · apply completion_log_found
    simp
  · intro hflag
    apply counter_persists
    exact RecordHTTPMetrics_counter_mem _ _ _ _ _ _ hflag

/-- Closed instance of the amended C3 statement: a handler that writes no
status is recorded as 200. -/
theorem c3_status_recording_witness :
    ∃ wOut em, Kit.HTTPMiddleware ⟨true, true, true, true, true, true⟩ ⟨[], 0⟩
        ⟨"GET", "/x", "/x", "ua", "1.2.3.4"⟩ ⟨[], 1000⟩ = .ok (wOut, em, 200) ∧
      (∃ s, wOut.spans[0]? = some s ∧ s.ended = true ∧
        (⟨"http.status_code", .int 200⟩ : KeyValue) ∈ s.attrs) := by
  obtain ⟨wOut, em, heq, hspan, -, -⟩ := c3_status_recording
    ⟨true, true, true, true, true, true⟩ ⟨[], 0⟩ ⟨"GET", "/x", "/x", "ua", "1.2.3.4"⟩
    ⟨[], 1000⟩ rfl
  exact ⟨wOut, em, heq, hspan⟩

/-- Claim C10: the completion log is written by calling LogAttrs on the
structured logger with no nil guard, so with a nil logger HTTPMiddleware
panics before finishing the request, and with a non-nil logger every
request is processed to completion. -/
theorem c10_HTTPMiddleware_requires_logger (k : Kit) (w : World) (req : Request)
    (next : HttpHandler) :
    (k.logger = false → exOk (k.HTTPMiddleware w req next) = false) ∧
    (k.logger = true → exOk (k.HTTPMiddleware w req next) = true) := by
  constructor
  · intro h
    simp only [Kit.HTTPMiddleware]
    rw [if_pos h]
    rfl
  · intro h
    simp only [Kit.HTTPMiddleware]
    rw [if_neg (by simp [h])]
    rfl

/-- Closed instance of the C10 statement on a logger-less and a full kit. -/
theorem c10_HTTPMiddleware_requires_logger_witness :
    exOk (Kit.HTTPMiddleware ⟨false, false, false, false, false, false⟩ ⟨[], 0⟩
      ⟨"GET", "/", "/", "ua", "ra"⟩ ⟨[], 5⟩) = false ∧
    exOk (Kit.HTTPMiddleware ⟨true, true, true, true, true, true⟩ ⟨[], 0⟩
      ⟨"GET", "/", "/", "ua", "ra"⟩ ⟨[], 5⟩) = true :=
  ⟨(c10_HTTPMiddleware_requires_logger _ _ _ _).1 rfl,
   (c10_HTTPMiddleware_requires_logger _ _ _ _).2 rfl⟩

/- Shutdown (the three providers). -/

/-- The three provider handles and what their Shutdown(ctx) calls would
return: none models a nil handle (signal disabled), some r a live provider
whose shutdown returns r. -/
structure Providers where
  tracerProvider : Option (Except String Unit)
  meterProvider : Option (Except String Unit)
  loggerProvider : Option (Except String Unit)
  deriving Repr

/-- The errs slice OTelKit.Shutdown accumulates: each non-nil provider is
shut down in turn and a failure appends its wrapped message. -/
def shutdownErrs (p : Providers) : List String :=
  let errs : List String := []
  let errs := match p.tracerProvider with
    | some (.error e) => errs ++ ["tracer provider shutdown: " ++ e]
    | _ => errs
  let errs := match p.meterProvider with
    | some (.error e) => errs ++ ["meter provider shutdown: " ++ e]
    | _ => errs
  let errs := match p.loggerProvider with
    | some (.error e) => errs ++ ["logger provider shutdown: " ++ e]
    | _ => errs
  errs

/-- OTelKit.Shutdown: returns the combined error when any shutdown failed,
nil otherwise (the %v rendering of the slice is modelled by intercalate). -/
def Shutdown (p : Providers) : Option String :=
  let errs := shutdownErrs p
  if 0 < errs.length then
    some ("shutdown errors: " ++ String.intercalate "; " errs)
  else none

/-- This provider handle contributes no shutdown failure: it is nil (skipped
silently) or shuts down cleanly. -/
def providerOk : Option (Except String Unit) → Prop
  | some (.error _) => False
  | _ => True

/-- Claim C8: the three providers are shut down independently, so the
collected failures decompose as the tracer part, then the meter part, then
the logger part, each present exactly when that handle is non-nil and
fails; and Shutdown returns nil exactly when no present provider fails. -/
theorem c8_Shutdown_independent (p : Providers) :
    shutdownErrs p =
      (match p.tracerProvider with
        | some (.error e) => ["tracer provider shutdown: " ++ e]
        | _ => []) ++
      (match p.meterProvider with
        | some (.error e) => ["meter provider shutdown: " ++ e]
        | _ => []) ++
      (match p.loggerProvider with
        | some (.error e) => ["logger provider shutdown: " ++ e]
        | _ => []) ∧
    (Shutdown p = none ↔
      providerOk p.tracerProvider ∧ providerOk p.meterProvider ∧ providerOk p.loggerProvider) := by
  obtain ⟨t, m, l⟩ := p
  rcases t with _ | (te | tu) <;> rcases m with _ | (me | mu) <;> rcases l with _ | (le | lu) <;>
    simp [shutdownErrs, Shutdown, providerOk]

/-- Closed instance of the C8 statement: nil meter is skipped and clean
providers yield a nil combined error. -/
theorem c8_Shutdown_independent_witness :
    Shutdown ⟨some (.ok ()), none, some (.ok ())⟩ = none :=
  (c8_Shutdown_independent ⟨some (.ok ()), none, some (.ok ())⟩).2.mpr
    ⟨True.intro, True.intro, True.intro⟩

end OtelKit
